import Mathlib

/-!
Shallow embedding of the easyetl library (src/easyetl/main.py): the tabular
data model shared by the Extract, Load and Transform classes, the operations
the specification describes, and proofs of the spec-level properties.

Python values are modelled as an inductive `PyVal` (a pandas DataFrame, a
pandas Series, or a non-tabular value); the outcome of a call is a `Ret`, which
distinguishes an exception propagating to the caller from a normal return
together with the lines printed by the body.  The pandas operations the
source delegates to are modelled on the same data model, restricted to the
cell universe used here (missing values, integers, text and parsed
datetimes).
-/

namespace EasyEtl

/-- Character for one decimal digit (0 ≤ d ≤ 9 gives `0`-`9`). -/
def digitChar (d : Nat) : Char := Char.ofNat (48 + d)

/-- Little-endian decimal digits of a number; the first argument is fuel so
that the recursion is structural.  `natDigitsRev n n` gives the digits of
`n` (empty for 0). -/
def natDigitsRev : Nat → Nat → List Nat
  | 0, _ => []
  | _ + 1, 0 => []
  | f + 1, m + 1 => ((m + 1) % 10) :: natDigitsRev f ((m + 1) / 10)

/-- Value of a little-endian list of decimal digits. -/
def decValue : List Nat → Nat
  | [] => 0
  | d :: ds => d + 10 * decValue ds

/-- The decimal digit denoted by a character, if any. -/
def charDigit? (c : Char) : Option Nat :=
  if 48 ≤ c.toNat ∧ c.toNat ≤ 57 then some (c.toNat - 48) else none

/-- Parse every character of the list as a decimal digit (big-endian). -/
def digitsOfChars? : List Char → Option (List Nat)
  | [] => some []
  | c :: cs =>
    match charDigit? c, digitsOfChars? cs with
    | some d, some ds => some (d :: ds)
    | _, _ => none

/-- Big-endian decimal character list of a natural number. -/
def natToDecList (n : Nat) : List Char :=
  if n = 0 then ['0'] else ((natDigitsRev n n).map digitChar).reverse

/-- Decimal rendering of an integer, as Python `str` renders it. -/
def intToDec (n : Int) : String :=
  if n < 0 then String.mk ('-' :: natToDecList n.natAbs) else String.mk (natToDecList n.natAbs)

/-- Parse a character list as a decimal integer (optional leading minus). -/
def decOfChars? : List Char → Option Int
  | [] => none
  | c :: cs =>
    if c = '-' then
      if cs = [] then none
      else (digitsOfChars? cs).map (fun ds => -((decValue ds.reverse : Nat) : Int))
    else (digitsOfChars? (c :: cs)).map (fun ds => ((decValue ds.reverse : Nat) : Int))

/-- Parse a string as a decimal integer, as the type inference of
`pandas.read_csv` recognises integer fields. -/
def decToInt? (s : String) : Option Int := decOfChars? s.data

/-- A cell of a tabular value: a missing entry, an integer, a piece of text,
or a parsed datetime (carried as a numeric timestamp). -/
inductive Cell where
  | na : Cell
  | int (n : Int) : Cell
  | str (s : String) : Cell
  | dt (t : Int) : Cell
  deriving DecidableEq, Repr

/-- A pandas DataFrame: ordered named columns, row labels, and rows of cells. -/
structure DataFrame where
  cols : List String
  idx : List Nat
  rows : List (List Cell)
  deriving DecidableEq, Repr

/-- A pandas Series: a single named column of cells with row labels. -/
structure Series where
  name : String
  idx : List Nat
  vals : List Cell
  deriving DecidableEq, Repr

/-- A Python runtime value as the isinstance checks of the source see it:
a DataFrame, a Series, or some non-tabular value. -/
inductive PyVal where
  | df (d : DataFrame)
  | series (s : Series)
  | pyscalar (c : Cell)
  | pynone
  deriving DecidableEq, Repr

/-- Python exception kinds raised by the source or by the libraries it calls. -/
inductive PyError where
  | typeError (msg : String)
  | valueError (msg : String)
  | keyError (msg : String)
  | fileExistsError (msg : String)
  | attributeError (msg : String)
  | ioError (msg : String)
  | dbError (msg : String)
  deriving DecidableEq, Repr

/-- Python `str(e)` on an exception: its message. -/
def errStr : PyError → String
  | .typeError m => m
  | .valueError m => m
  | .keyError m => m
  | .fileExistsError m => m
  | .attributeError m => m
  | .ioError m => m
  | .dbError m => m

/-- Outcome of calling one of the functions of the source: either an exception
propagates to the caller, or the call returns a value after printing the
given lines. -/
inductive Ret (α : Type) where
  | raised (e : PyError)
  | returned (val : α) (printed : List String)
  deriving DecidableEq, Repr

/-- True when the call ended in an exception the caller can catch. -/
def Ret.isRaised {α : Type} : Ret α → Bool
  | .raised _ => true
  | _ => false

/-- True when the call raised a type-mismatch error. -/
def Ret.isTypeErrorRaised {α : Type} : Ret α → Bool
  | .raised (.typeError _) => true
  | _ => false

/-- The isinstance (pd.DataFrame, pd.Series) check most operations perform. -/
def PyVal.isTabular : PyVal → Bool
  | .df _ => true
  | .series _ => true
  | _ => false

/-- A delimited file as a header line plus body lines, at field granularity. -/
structure CsvFile where
  header : List String
  body : List (List String)
  deriving DecidableEq, Repr

/-- Contents of a file written by one of the Load sinks. -/
inductive FileData where
  | csvF (f : CsvFile)
  | jsonF (v : PyVal)
  | excelF (v : PyVal)
  deriving DecidableEq, Repr

/-- The filesystem the Load sinks write to, as a path-keyed association list. -/
abbrev FileSys := List (String × FileData)

/-- The relational database load_to_db writes to: tables keyed by name. -/
abbrev DbState := List (String × DataFrame)

/-- Field written by pandas to_csv for one cell. -/
def cellToCsv : Cell → String
  | .na => ""
  | .int n => intToDec n
  | .str s => s
  | .dt t => intToDec t

/-- pandas DataFrame.to_csv with index=False: header row then one line of
fields per row, no positional index column. -/
def dfToCsv (d : DataFrame) : CsvFile :=
  ⟨d.cols, d.rows.map (fun r => r.map cellToCsv)⟩

/-- pandas Series.to_csv with index=False. -/
def seriesToCsv (s : Series) : CsvFile :=
  ⟨[s.name], s.vals.map (fun c => [cellToCsv c])⟩

namespace Extract

/-- Extract.read_db: psycopg2.connect, then pd.read_sql_query, then
connection.close(), with no try/finally.  The outcomes of the two external
calls are parameters; the Bool component is true when a connection is still
open at the moment control returns to the caller. -/
def read_db (connectRes : Except PyError Unit) (queryRes : Except PyError DataFrame) :
    Ret DataFrame × Bool :=
  match connectRes with
  | .error e => (.raised e, false)
  | .ok _ =>
    match queryRes with
    | .error e => (.raised e, true)
    | .ok d => (.returned d [], false)

end Extract

namespace Load

def checkFileMsg (filepath : String) : String :=
  "The file on " ++ filepath ++ " exists, pass overwrite=True to overwrite file"

/-- Load._check_file: raises FileExistsError when the path already exists
and overwrite is false; otherwise does nothing. -/
def check_file (fs : FileSys) (filepath : String) (overwrite : Bool) : Except PyError Unit :=
  if (fs.lookup filepath).isSome ∧ ¬overwrite then
    .error (.fileExistsError (checkFileMsg filepath))
  else .ok ()

def loadTypeMsg : String := "Expected data to be a Pandas.DataFrame object"

def loadDbTypeMsg : String := "Expected data needs to be a Pandas.DataFrame object"

def loadErrPrint (e : PyError) : String := "Error occurred during loading: " ++ errStr e

/-- Load.load_csv: isinstance check raising TypeError, then a try block
running the overwrite guard and data.to_csv(filepath, index=False), with
every failure caught and printed. -/
def load_csv (data : PyVal) (filepath : String) (overwrite : Bool) (fs : FileSys) :
    Ret Unit × FileSys :=
  match data with
  | .df d =>
    match check_file fs filepath overwrite with
    | .error e => (.returned () [loadErrPrint e], fs)
    | .ok _ =>
      (.returned () ["CSV file loaded successfully"], (filepath, .csvF (dfToCsv d)) :: fs)
  | .series s =>
    match check_file fs filepath overwrite with
    | .error e => (.returned () [loadErrPrint e], fs)
    | .ok _ =>
      (.returned () ["CSV file loaded successfully"], (filepath, .csvF (seriesToCsv s)) :: fs)
  | _ => (.raised (.typeError loadTypeMsg), fs)

/-- Load.load_json: same shape, serializing via data.to_json(filepath). -/
def load_json (data : PyVal) (filepath : String) (overwrite : Bool) (fs : FileSys) :
    Ret Unit × FileSys :=
  match data with
  | .df _ | .series _ =>
    match check_file fs filepath overwrite with
    | .error e => (.returned () [loadErrPrint e], fs)
    | .ok _ =>
      (.returned () ["JSON file loaded successfully"], (filepath, .jsonF data) :: fs)
  | _ => (.raised (.typeError loadTypeMsg), fs)

/-- Load.load_to_excel: same shape, serializing via data.to_excel(filepath)
(which keeps the positional index column). -/
def load_to_excel (data : PyVal) (filepath : String) (overwrite : Bool) (fs : FileSys) :
    Ret Unit × FileSys :=
  match data with
  | .df _ | .series _ =>
    match check_file fs filepath overwrite with
    | .error e => (.returned () [loadErrPrint e], fs)
    | .ok _ =>
      (.returned () ["Excel file loaded successfully"], (filepath, .excelF data) :: fs)
  | _ => (.raised (.typeError loadTypeMsg), fs)

/-- Load.load_to_db: isinstance check raising TypeError, then data.to_sql
with if_exists=replace, unconditionally replacing the named table. -/
def load_to_db (data : PyVal) (name : String) (url : String) (db : DbState) :
    Ret Unit × DbState :=
  match data with
  | .df d => (.returned () ["Table created successfully!"], (name, d) :: db)
  | .series s =>
    (.returned () ["Table created successfully!"],
      (name, ⟨[s.name], s.idx, s.vals.map (fun c => [c])⟩) :: db)
  | _ => (.raised (.typeError loadDbTypeMsg), db)

end Load

namespace Transform

def dropTypeMsg : String := "Expected data to be a pandas.DataFrame"

def tErrPrint (e : PyError) : String := "Error: " ++ errStr e

/-- Column positions the dropna check covers: all columns, or the positions
of the columns named in the subset. -/
def checkedPos (cols : List String) (subset : Option (List String)) : List Nat :=
  match subset with
  | none => List.range cols.length
  | some s => (List.range cols.length).filter (fun i => decide (cols.getD i "" ∈ s))

/-- Count of non-missing entries of a row over the checked positions, as
pandas DataFrame.dropna computes it. -/
def countNonNa (idxs : List Nat) (r : List Cell) : Nat :=
  (idxs.filter (fun i => decide (r.getD i Cell.na ≠ Cell.na))).length

/-- pandas keep-mask for one row: how=any keeps a row whose non-missing
count equals the number of checked positions, how=all keeps a row with a
positive non-missing count. -/
def keepRow (idxs : List Nat) (how : String) (r : List Cell) : Bool :=
  if how = "any" then decide (countNonNa idxs r = idxs.length)
  else decide (0 < countNonNa idxs r)

/-- pandas DataFrame.dropna over rows: filter row labels and rows together
by the keep-mask. -/
def dropRows (d : DataFrame) (idxs : List Nat) (how : String) : DataFrame :=
  let pairs := (d.idx.zip d.rows).filter (fun p => keepRow idxs how p.2)
  ⟨d.cols, pairs.map Prod.fst, pairs.map Prod.snd⟩

/-- pandas keep-mask for one column position. -/
def keepCol (rows : List (List Cell)) (how : String) (j : Nat) : Bool :=
  if how = "any" then rows.all (fun r => decide (r.getD j Cell.na ≠ Cell.na))
  else rows.any (fun r => decide (r.getD j Cell.na ≠ Cell.na))

/-- pandas DataFrame.dropna over columns (no subset). -/
def dropColsDf (d : DataFrame) (how : String) : DataFrame :=
  let js := (List.range d.cols.length).filter (keepCol d.rows how)
  ⟨js.map (fun j => d.cols.getD j ""), d.idx, d.rows.map (fun r => js.map (fun j => r.getD j Cell.na))⟩

/-- pandas DataFrame.dropna(axis, how, subset): validates how and axis,
resolves the subset (raising KeyError on names absent from the axis), and
filters rows or columns.  A subset given with axis=columns names row labels;
the integer row labels here never match the string subset entries. -/
def pdDropnaDf (d : DataFrame) (axis : String) (how : String) (subset : Option (List String)) :
    Except PyError DataFrame :=
  if how ≠ "any" ∧ how ≠ "all" then .error (.valueError ("invalid how option: " ++ how))
  else if axis = "index" then
    match subset with
    | none => .ok (dropRows d (checkedPos d.cols none) how)
    | some s =>
      if s.all (fun c => decide (c ∈ d.cols)) then
        .ok (dropRows d (checkedPos d.cols (some s)) how)
      else .error (.keyError "subset entries not found in the columns")
  else if axis = "columns" then
    match subset with
    | none => .ok (dropColsDf d how)
    | some _ => .error (.keyError "subset entries not found in the index")
  else .error (.valueError ("No axis named " ++ axis))

/-- pandas Series.dropna: drops missing entries; only the index axis exists. -/
def pdDropnaSeries (s : Series) (axis : String) : Except PyError Series :=
  if axis = "index" then
    let pairs := (s.idx.zip s.vals).filter (fun p => decide (p.2 ≠ Cell.na))
    .ok ⟨s.name, pairs.map Prod.fst, pairs.map Prod.snd⟩
  else .error (.valueError ("No axis named " ++ axis ++ " for object type Series"))

/-- Transform.drop_na: isinstance check raising TypeError, then a try block
around data.dropna(axis=drop, how=how, inplace=inplace, subset=columns)
whose failures are caught and printed; returns the cleaned value only when
inplace is false.  A Series rejects the subset keyword inside the try. -/
def drop_na (data : PyVal) (columns : Option (List String)) (drop : String) (inplace : Bool)
    (how : String) : Ret (Option PyVal) × PyVal :=
  match data with
  | .df d =>
    match pdDropnaDf d drop how columns with
    | .error e => (.returned none [tErrPrint e], data)
    | .ok d2 =>
      if inplace then (.returned none [], .df d2)
      else (.returned (some (.df d2)) [], data)
  | .series s =>
    match columns with
    | some _ =>
      (.returned none [tErrPrint (.typeError "dropna got an unexpected keyword argument subset")],
        data)
    | none =>
      match pdDropnaSeries s drop with
      | .error e => (.returned none [tErrPrint e], data)
      | .ok s2 =>
        if inplace then (.returned none [], .series s2)
        else (.returned (some (.series s2)) [], data)
  | _ => (.raised (.typeError dropTypeMsg), data)

/-- Scalar value substitution pandas replace performs on one cell. -/
def replaceCell (item_a item_b : Cell) (c : Cell) : Cell :=
  if c = item_a then item_b else c

/-- pandas DataFrame.replace with scalar arguments. -/
def replaceDf (d : DataFrame) (item_a item_b : Cell) : DataFrame :=
  ⟨d.cols, d.idx, d.rows.map (fun r => r.map (replaceCell item_a item_b))⟩

/-- pandas Series.replace with scalar arguments. -/
def replaceSeries (s : Series) (item_a item_b : Cell) : Series :=
  ⟨s.name, s.idx, s.vals.map (replaceCell item_a item_b)⟩

/-- Transform.replace: isinstance check raising TypeError, then
data.replace(item_a, item_b, inplace=inplace); returns the replaced value,
or the (mutated) input when inplace is true. -/
def replace (data : PyVal) (item_a item_b : Cell) (inplace : Bool) :
    Ret (Option PyVal) × PyVal :=
  match data with
  | .df d =>
    if inplace then
      (.returned (some (.df (replaceDf d item_a item_b))) [], .df (replaceDf d item_a item_b))
    else (.returned (some (.df (replaceDf d item_a item_b))) [], data)
  | .series s =>
    if inplace then
      (.returned (some (.series (replaceSeries s item_a item_b))) [],
        .series (replaceSeries s item_a item_b))
    else (.returned (some (.series (replaceSeries s item_a item_b))) [], data)
  | _ => (.raised (.typeError dropTypeMsg), data)

def explodeTypeMsg : String := "Expected data to be a Dataframe"

/-- Transform.explode: isinstance check raising TypeError, then a try block
around data.explode(columns).  On the cell universe modelled here no cell
holds a list, and pandas explode leaves non-list entries unchanged, so a
successful explode returns the rows as they are; missing or empty column
arguments fail inside the try and are caught and printed.  Series.explode
takes the positional list as its ignore_index flag (truthy for a non-empty
list), so a Series comes back with its entries unchanged and with the index
reset exactly when the list is non-empty. -/
def explode (data : PyVal) (columns : List String) : Ret (Option PyVal) × PyVal :=
  match data with
  | .df d =>
    if columns ≠ [] ∧ columns.all (fun c => decide (c ∈ d.cols)) then
      (.returned (some (.df d)) [], data)
    else (.returned none [tErrPrint (.keyError "columns must be unique and present in the frame")],
      data)
  | .series s =>
    (.returned
      (some (.series ⟨s.name, if columns = [] then s.idx else List.range s.vals.length, s.vals⟩))
      [], data)
  | _ => (.raised (.typeError explodeTypeMsg), data)

def changeTypeMsg : String := "Expected data to be a Dataframe or Series"

/-- Target dtypes of Transform.changetype modelled here. -/
inductive Dtype where
  | dstr
  | dint
  deriving DecidableEq, Repr

/-- pandas astype on one cell: astype(str) renders every cell as text
(missing values become the text nan); astype(int) parses text, keeps
integers, takes the timestamp of a datetime, and fails on missing values. -/
def castCell : Dtype → Cell → Except PyError Cell
  | .dstr, .na => .ok (.str "nan")
  | .dstr, .int n => .ok (.str (intToDec n))
  | .dstr, .str s => .ok (.str s)
  | .dstr, .dt t => .ok (.str (intToDec t))
  | .dint, .na => .error (.valueError "Cannot convert non-finite values (NA or inf) to integer")
  | .dint, .int n => .ok (.int n)
  | .dint, .str s =>
    match decToInt? s with
    | some n => .ok (.int n)
    | none => .error (.valueError ("invalid literal for int with base 10: " ++ s))
  | .dint, .dt t => .ok (.int t)

/-- Transform.changetype: isinstance check raising TypeError, then a try
block around data.astype(dtype) whose failures are caught and printed. -/
def changetype (data : PyVal) (dtype : Dtype) : Ret (Option PyVal) × PyVal :=
  match data with
  | .df d =>
    match d.rows.mapM (fun r => r.mapM (castCell dtype)) with
    | .ok rows => (.returned (some (.df ⟨d.cols, d.idx, rows⟩)) [], data)
    | .error e => (.returned none [tErrPrint e], data)
  | .series s =>
    match s.vals.mapM (castCell dtype) with
    | .ok vals => (.returned (some (.series ⟨s.name, s.idx, vals⟩)) [], data)
    | .error e => (.returned none [tErrPrint e], data)
  | _ => (.raised (.typeError changeTypeMsg), data)

def dtColMsg : String := "Column is not in data. Please pass a valid column name"

def dtTypeMsg : String := "Expected data to be a Dataframe or Series"

/-- Datetime text pandas.to_datetime accepts in this model: ISO dates
YYYY-MM-DD, mapped to the number yyyymmdd. -/
def parseDate (s : String) : Option Int :=
  match s.data with
  | [y1, y2, y3, y4, h1, m1, m2, h2, d1, d2] =>
    if h1 = '-' ∧ h2 = '-' then
      match charDigit? y1, charDigit? y2, charDigit? y3, charDigit? y4,
            charDigit? m1, charDigit? m2, charDigit? d1, charDigit? d2 with
      | some a, some b, some c, some d, some e, some f, some g, some h =>
        let mm := 10 * e + f
        let dd := 10 * g + h
        if 1 ≤ mm ∧ mm ≤ 12 ∧ 1 ≤ dd ∧ dd ≤ 31 then
          some (((1000 * a + 100 * b + 10 * c + d) * 10000 + mm * 100 + dd : Nat) : Int)
        else none
      | _, _, _, _, _, _, _, _ => none
    else none
  | _ => none

/-- pandas.to_datetime on one cell: missing stays missing, numbers are taken
as timestamps, text must parse as a date. -/
def cellToDt : Cell → Except PyError Cell
  | .na => .ok .na
  | .dt t => .ok (.dt t)
  | .int n => .ok (.dt n)
  | .str s =>
    match parseDate s with
    | some t => .ok (.dt t)
    | none => .error (.valueError ("Unknown datetime string format: " ++ s))

/-- Apply a fallible cell transformation to the column of the given name,
leaving the other columns as they are. -/
def setCol (d : DataFrame) (column : String) (f : Cell → Except PyError Cell) :
    Except PyError DataFrame := do
  let i := d.cols.indexOf column
  let rows ← d.rows.mapM (fun r => do
    let c ← f (r.getD i Cell.na)
    pure (r.set i c))
  pure ⟨d.cols, d.idx, rows⟩

/-- Transform.to_datetime: isinstance check raising TypeError, then the
column check (raising ValueError for a falsy or absent column name; on a
Series the attribute access data.columns itself raises AttributeError),
then a try block copying the frame and converting the column, with parse
failures caught and printed. -/
def to_datetime (data : PyVal) (column : String) : Ret (Option PyVal) × PyVal :=
  match data with
  | .df d =>
    if column = "" ∨ ¬(column ∈ d.cols) then (.raised (.valueError dtColMsg), data)
    else
      match setCol d column cellToDt with
      | .ok d2 => (.returned (some (.df d2)) [], data)
      | .error e => (.returned none [tErrPrint e], data)
  | .series _ =>
    if column = "" then (.raised (.valueError dtColMsg), data)
    else (.raised (.attributeError "Series object has no attribute columns"), data)
  | _ => (.raised (.typeError dtTypeMsg), data)

def renameTypeMsg : String := "Expected data to be a Dataframe"

/-- The TypeError pandas DataFrame.rename raises when a non-None axis is
passed together with an index or columns mapping. -/
def renameAxisConflictMsg : String := "Cannot specify both axis and any of index or columns"

/-- Transform.rename: isinstance check against pd.DataFrame only (a Series
is rejected), then a try block around data.rename(axis=to_rename,
columns=columns, index=index, inplace=inplace, errors=errors).  The source
always passes axis together with the columns and index mappings, and
to_rename is typed str, so pandas rejects the call with a TypeError before
looking at the mappings or the errors option; the catch-all prints it and
the call returns None with the frame untouched, on every argument
combination in the modelled space. -/
def rename (data : PyVal) (to_rename : String) (columns : List (String × String))
    (index : List (Nat × Nat)) (inplace : Bool) (errors : String) :
    Ret (Option PyVal) × PyVal :=
  match data with
  | .df _ => (.returned none [tErrPrint (.typeError renameAxisConflictMsg)], data)
  | _ => (.raised (.typeError renameTypeMsg), data)

end Transform

/-- Written from the claim, not from the code: with how=any a row is removed
iff at least one checked entry is missing, with how=all iff every checked
entry is missing. -/
def removedRow (idxs : List Nat) (how : String) (r : List Cell) : Bool :=
  if how = "any" then idxs.any (fun i => decide (r.getD i Cell.na = Cell.na))
  else idxs.all (fun i => decide (r.getD i Cell.na = Cell.na))

/-- Written from the claim, not from the code: the drop-missing result keeps
exactly the rows `removedRow` does not remove, in order, with their labels. -/
def dropnaClaimed (d : DataFrame) (subset : Option (List String)) (how : String) : DataFrame :=
  let idxs := Transform.checkedPos d.cols subset
  let pairs := (d.idx.zip d.rows).filter (fun p => !removedRow idxs how p.2)
  ⟨d.cols, pairs.map Prod.fst, pairs.map Prod.snd⟩

def dfA : DataFrame := ⟨["a"], [0], [[Cell.int 1]]⟩

def fs0 : FileSys := [("out.csv", .csvF ⟨["old"], [["7"]]⟩)]

def dfB : DataFrame := ⟨["a", "b"], [0, 1], [[Cell.int 1, Cell.na], [Cell.int 3, Cell.int 4]]⟩

def dfC : DataFrame := ⟨["a"], [0, 1], [[Cell.int 1], [Cell.str "x"]]⟩

def sA : Series := ⟨"a", [0], [Cell.int 1]⟩

/-! ## Decimal printing and parsing round trip -/

theorem length_filter_eq_iff {α : Type} (p : α → Bool) (l : List α) :
    (l.filter p).length = l.length ↔ ∀ a ∈ l, p a = true := by
  induction l with
  | nil => simp
  | cons x xs ih =>
    by_cases hx : p x = true
    · simp [List.filter_cons, hx, ih]
    · have hpx : p x = false := by revert hx; cases p x <;> simp
      have hle := List.length_filter_le p xs
      simp only [List.filter_cons, hpx, Bool.false_eq_true, if_false, List.length_cons]
      constructor
      · intro h; exact absurd h (by omega)
      · intro h; exact absurd (h x (by simp)) (by simp [hpx])

theorem length_filter_pos_iff {α : Type} (p : α → Bool) (l : List α) :
    0 < (l.filter p).length ↔ ∃ a ∈ l, p a = true := by
  induction l with
  | nil => simp
  | cons x xs ih =>
    by_cases hx : p x = true
    · simp [List.filter_cons, hx]
    · have hpx : p x = false := by revert hx; cases p x <;> simp
      simp [List.filter_cons, hpx, ih]

/-! ## C1 -/

/-- C1 (counterexample): an invocation of read_db whose connect succeeds and
whose row materialization fails returns with the query error propagating and
the database connection still open - the claim that the connection is closed
on failure does not hold of the code, which has no try/finally. -/
theorem read_db_open_on_query_failure :
    Extract.read_db (.ok ()) (.error (.dbError "query failed"))
      = (.raised (.dbError "query failed"), true) := rfl

/-- C1 (amended): a connection is still open when read_db returns exactly when
the connect succeeded and materializing the result set failed; in particular
on success, and when connect itself fails, no connection is left open. -/
theorem read_db_close_characterization (connectRes : Except PyError Unit)
    (queryRes : Except PyError DataFrame) :
    (Extract.read_db connectRes queryRes).2 = true ↔
      connectRes = .ok () ∧ ∃ e, queryRes = .error e := by
  cases connectRes with
  | error e => simp [Extract.read_db]
  | ok u =>
    cases u
    cases queryRes with
    | error e => simp [Extract.read_db]
    | ok d => simp [Extract.read_db]

/-! ## C2 -/

/-- C2 (amended): calling load_csv on an existing path with overwrite=false
raises FileExistsError inside the guard, but the catch-all swallows it: the
caller observes a normal return (None) with the error only printed, and the
filesystem - in particular the existing file - is unchanged. -/
theorem load_csv_existing_swallows (d : DataFrame) (p : String) (fs : FileSys)
    (h : (fs.lookup p).isSome = true) :
    Load.load_csv (.df d) p false fs
      = (.returned () [Load.loadErrPrint (.fileExistsError (Load.checkFileMsg p))], fs) := by
  unfold Load.load_csv Load.check_file
  simp [h]

/-- C2 (witness for the amended claim). -/
theorem load_csv_existing_swallows_w :
    (fs0.lookup "out.csv").isSome = true ∧
    Load.load_csv (.df dfA) "out.csv" false fs0
      = (.returned () [Load.loadErrPrint (.fileExistsError (Load.checkFileMsg "out.csv"))], fs0) :=
  ⟨by decide, load_csv_existing_swallows dfA "out.csv" fs0 (by decide)⟩

/-- C2 (counterexample): on an existing path with overwrite=false the caller
observes no raised error at all - the FileExistsError is caught and printed,
so the failure is not observable, contrary to the claim; the file contents
are indeed left unchanged. -/
theorem load_csv_existing_no_raise_cex :
    (Load.load_csv (.df dfA) "out.csv" false fs0).1.isRaised = false ∧
    (Load.load_csv (.df dfA) "out.csv" false fs0).2 = fs0 := by decide

/-! ## C3 -/

/-- C3: every Loader operation and every Transformer operation, given a value
that is neither a DataFrame nor a Series, raises TypeError synchronously and
leaves the filesystem, the database and the input value untouched. -/
theorem type_mismatch_raised_first (v : PyVal) (hv : v.isTabular = false)
    (p : String) (ow : Bool) (fs : FileSys) (name url : String) (db : DbState)
    (cols : Option (List String)) (dr : String) (ip : Bool) (how : String)
    (a b : Cell) (ec : List String) (ty : Transform.Dtype) (c : String)
    (ax : String) (cm : List (String × String)) (ix : List (Nat × Nat)) (er : String) :
    Load.load_csv v p ow fs = (.raised (.typeError Load.loadTypeMsg), fs) ∧
    Load.load_json v p ow fs = (.raised (.typeError Load.loadTypeMsg), fs) ∧
    Load.load_to_excel v p ow fs = (.raised (.typeError Load.loadTypeMsg), fs) ∧
    Load.load_to_db v name url db = (.raised (.typeError Load.loadDbTypeMsg), db) ∧
    Transform.drop_na v cols dr ip how = (.raised (.typeError Transform.dropTypeMsg), v) ∧
    Transform.replace v a b ip = (.raised (.typeError Transform.dropTypeMsg), v) ∧
    Transform.explode v ec = (.raised (.typeError Transform.explodeTypeMsg), v) ∧
    Transform.changetype v ty = (.raised (.typeError Transform.changeTypeMsg), v) ∧
    Transform.to_datetime v c = (.raised (.typeError Transform.dtTypeMsg), v) ∧
    Transform.rename v ax cm ix ip er = (.raised (.typeError Transform.renameTypeMsg), v) := by
  cases v with
  | df d => simp [PyVal.isTabular] at hv
  | series s => simp [PyVal.isTabular] at hv
  | pyscalar c2 => exact ⟨rfl, rfl, rfl, rfl, rfl, rfl, rfl, rfl, rfl, rfl⟩
  | pynone => exact ⟨rfl, rfl, rfl, rfl, rfl, rfl, rfl, rfl, rfl, rfl⟩

/-- C3 (witness): a plain scalar input raises TypeError from load_csv and
from drop_na, with the state unchanged. -/
theorem type_mismatch_raised_first_w :
    PyVal.isTabular (.pyscalar (.int 7)) = false ∧
    Load.load_csv (.pyscalar (.int 7)) "out.csv" false []
      = (.raised (.typeError Load.loadTypeMsg), []) ∧
    Transform.drop_na (.pyscalar (.int 7)) none "index" false "any"
      = (.raised (.typeError Transform.dropTypeMsg), .pyscalar (.int 7)) :=
  ⟨rfl,
    (type_mismatch_raised_first (.pyscalar (.int 7)) rfl "out.csv" false [] "t" "u" []
      none "index" false "any" .na .na [] .dstr "c" "columns" [] [] "ignore").1,
    (type_mismatch_raised_first (.pyscalar (.int 7)) rfl "out.csv" false [] "t" "u" []
      none "index" false "any" .na .na [] .dstr "c" "columns" [] [] "ignore").2.2.2.2.1⟩

/-! ## C7 -/

/-- C7: with the in-place flag false (or absent), no Transformer operation
changes the value held by the caller - the second component of each model call, the
value the caller holds afterwards, equals the input - and replace returns
the freshly substituted value. -/
theorem transform_no_mutation_default (v : PyVal) (cols : Option (List String)) (dr how : String)
    (a b : Cell) (ec : List String) (ty : Transform.Dtype) (c ax er : String)
    (cm : List (String × String)) (ix : List (Nat × Nat)) (d : DataFrame) :
    (Transform.drop_na v cols dr false how).2 = v ∧
    (Transform.replace v a b false).2 = v ∧
    (Transform.explode v ec).2 = v ∧
    (Transform.changetype v ty).2 = v ∧
    (Transform.to_datetime v c).2 = v ∧
    (Transform.rename v ax cm ix false er).2 = v ∧
    (Transform.replace (.df d) a b false).1
      = .returned (some (.df (Transform.replaceDf d a b))) [] := by
  refine ⟨?_, ?_, ?_, ?_, ?_, ?_, rfl⟩
  · cases v <;> simp only [Transform.drop_na] <;> (repeat' split) <;> first | rfl | simp_all
  · cases v <;> rfl
  · cases v <;> simp only [Transform.explode] <;> (repeat' split) <;> first | rfl | simp_all
  · cases v <;> simp only [Transform.changetype] <;> (repeat' split) <;> first | rfl | simp_all
  · cases v <;> simp only [Transform.to_datetime] <;> (repeat' split) <;> first | rfl | simp_all
  · cases v <;> simp only [Transform.rename] <;> (repeat' split) <;> first | rfl | simp_all

/-! ## C4 -/

theorem countNonNa_eq_length_iff (idxs : List Nat) (r : List Cell) :
    Transform.countNonNa idxs r = idxs.length ↔ ∀ i ∈ idxs, r.getD i Cell.na ≠ Cell.na := by
  unfold Transform.countNonNa
  rw [length_filter_eq_iff]
  simp

theorem countNonNa_pos_iff (idxs : List Nat) (r : List Cell) :
    0 < Transform.countNonNa idxs r ↔ ∃ i ∈ idxs, r.getD i Cell.na ≠ Cell.na := by
  unfold Transform.countNonNa
  rw [length_filter_pos_iff]
  simp

theorem keepRow_eq_not_removedRow (idxs : List Nat) (how : String) (r : List Cell)
    (hhow : how = "any" ∨ how = "all") :
    Transform.keepRow idxs how r = !removedRow idxs how r := by
  rcases hhow with h | h <;> subst h
  · simp only [Transform.keepRow, removedRow, if_true]
    rw [Bool.eq_iff_iff]
    simp only [decide_eq_true_eq, Bool.not_eq_true', List.any_eq_false, decide_eq_true_eq]
    rw [countNonNa_eq_length_iff]
  · simp only [Transform.keepRow, removedRow]
    rw [if_neg (by decide), if_neg (by decide)]
    rw [Bool.eq_iff_iff]
    simp only [decide_eq_true_eq, Bool.not_eq_true']
    rw [countNonNa_pos_iff]
    constructor
    · rintro ⟨a, ha, hp⟩
      rw [List.all_eq_false]
      exact ⟨a, ha, by simpa [List.getD] using hp⟩
    · intro hall
      rw [List.all_eq_false] at hall
      obtain ⟨a, ha, hp⟩ := hall
      refine ⟨a, ha, ?_⟩
      simpa using hp

/-- C4: drop_na over rows with a valid how option and checked-column scope
removes exactly the rows the claim describes - with how=any a row is removed
iff some checked entry is missing, with how=all iff every checked entry is
missing - returning the retained rows (and their labels) in order with the
columns untouched, and leaving the input unchanged. -/
theorem drop_na_rows_exact (d : DataFrame) (subset : Option (List String)) (how : String)
    (hhow : how = "any" ∨ how = "all")
    (hsub : ∀ s, subset = some s → ∀ c ∈ s, c ∈ d.cols) :
    Transform.drop_na (.df d) subset "index" false how
      = (.returned (some (.df (dropnaClaimed d subset how))) [], .df d) := by
  have hok : Transform.pdDropnaDf d "index" how subset
      = .ok (Transform.dropRows d (Transform.checkedPos d.cols subset) how) := by
    unfold Transform.pdDropnaDf
    have hh : ¬(how ≠ "any" ∧ how ≠ "all") := by
      rcases hhow with h | h <;> simp [h]
    rw [if_neg hh, if_pos rfl]
    cases subset with
    | none => rfl
    | some s =>
      have hall : s.all (fun c => decide (c ∈ d.cols)) = true := by
        rw [List.all_eq_true]
        intro c hc
        exact decide_eq_true (hsub s rfl c hc)
      simp [hall]
  have heq : Transform.dropRows d (Transform.checkedPos d.cols subset) how
      = dropnaClaimed d subset how := by
    unfold Transform.dropRows dropnaClaimed
    have hp : ((d.idx.zip d.rows).filter
          (fun p => Transform.keepRow (Transform.checkedPos d.cols subset) how p.2))
        = ((d.idx.zip d.rows).filter
          (fun p => !removedRow (Transform.checkedPos d.cols subset) how p.2)) := by
      apply List.filter_congr
      intro p _
      exact keepRow_eq_not_removedRow _ how p.2 hhow
    rw [hp]
  simp only [Transform.drop_na, hok, heq]
  rfl

/-- C4 (witness): on a two-row frame with one missing entry, drop_na with
how=any keeps exactly the fully present row. -/
theorem drop_na_rows_exact_w :
    ("any" = "any" ∨ "any" = "all") ∧
    Transform.drop_na (.df dfB) none "index" false "any"
      = (.returned (some (.df (dropnaClaimed dfB none "any"))) [], .df dfB) ∧
    dropnaClaimed dfB none "any" = ⟨["a", "b"], [1], [[Cell.int 3, Cell.int 4]]⟩ :=
  ⟨Or.inl rfl,
    drop_na_rows_exact dfB none "any" (Or.inl rfl) (by intro s h; cases h),
    by decide⟩

/-! ## C6 -/

theorem replaceCell_invol (c : Cell) (h : c ≠ Cell.int 2) :
    Transform.replaceCell (Cell.int 2) (Cell.int 1)
      (Transform.replaceCell (Cell.int 1) (Cell.int 2) c) = c := by
  unfold Transform.replaceCell
  by_cases h1 : c = Cell.int 1
  · simp [h1]
  · rw [if_neg h1, if_neg h]

theorem map_eq_self {α : Type} (l : List α) (f : α → α) (h : ∀ a ∈ l, f a = a) :
    l.map f = l := by
  induction l with
  | nil => rfl
  | cons x xs ih => simp [h x (by simp), ih (fun a ha => h a (by simp [ha]))]

theorem replaceDf_invol (d : DataFrame)
    (h : ∀ r ∈ d.rows, ∀ c ∈ r, c ≠ Cell.int 2) :
    Transform.replaceDf (Transform.replaceDf d (Cell.int 1) (Cell.int 2))
      (Cell.int 2) (Cell.int 1) = d := by
  unfold Transform.replaceDf
  cases d with
  | mk cols idx rows =>
    simp only [List.map_map]
    congr 1
    apply map_eq_self
    intro r hr
    simp only [Function.comp_apply, List.map_map]
    apply map_eq_self
    intro c hc
    exact replaceCell_invol c (h r hr c hc)

/-- C6: replacing 1 by 2 and then 2 by 1 reproduces the original frame when
the value 2 did not occur in it; each call returns the substituted frame and
leaves its input unchanged. -/
theorem replace_roundtrip (d : DataFrame)
    (h : ∀ r ∈ d.rows, ∀ c ∈ r, c ≠ Cell.int 2) :
    Transform.replace (.df d) (Cell.int 1) (Cell.int 2) false
      = (.returned (some (.df (Transform.replaceDf d (Cell.int 1) (Cell.int 2)))) [], .df d) ∧
    Transform.replace (.df (Transform.replaceDf d (Cell.int 1) (Cell.int 2)))
        (Cell.int 2) (Cell.int 1) false
      = (.returned (some (.df d)) [], .df (Transform.replaceDf d (Cell.int 1) (Cell.int 2))) := by
  refine ⟨rfl, ?_⟩
  have hinv := replaceDf_invol d h
  simp only [Transform.replace, hinv]
  rfl

/-- C6 (witness): a concrete frame without the value 2 round trips. -/
theorem replace_roundtrip_w :
    (∀ r ∈ dfC.rows, ∀ c ∈ r, c ≠ Cell.int 2) ∧
    Transform.replace (.df (Transform.replaceDf dfC (Cell.int 1) (Cell.int 2)))
        (Cell.int 2) (Cell.int 1) false
      = (.returned (some (.df dfC)) [], .df (Transform.replaceDf dfC (Cell.int 1) (Cell.int 2))) :=
  ⟨by decide, (replace_roundtrip dfC (by decide)).2⟩

/-! ## C8 -/

/-- C8 (counterexample): rename with on_unknown_key=raise and a mapping whose
key is absent from the frame does not fail with a KeyError observable by the
caller: pandas rejects the axis argument passed together with the mappings
with a TypeError before checking any label, the catch-all of the wrapper
prints it, and the call returns None normally with the frame unchanged. -/
theorem rename_raise_swallowed_cex :
    (Transform.rename (.df dfA) "columns" [("zzz", "b")] [] false "raise").1.isRaised = false ∧
    Transform.rename (.df dfA) "columns" [("zzz", "b")] [] false "raise"
      = (.returned none [Transform.tErrPrint (.typeError Transform.renameAxisConflictMsg)],
        .df dfA) := by
  decide

/-- C8 (amended): rename never fails observably and never renames - the
source forwards axis together with the columns and index mappings, which
pandas rejects with a TypeError before looking at the mappings or at the
errors option, so under both on_unknown_key settings (and any axis, any
mappings, either in-place flag) the wrapper catches and prints that error
and returns None, leaving the frame unchanged. -/
theorem rename_unknown_key_behavior (d : DataFrame) (ax : String)
    (cm : List (String × String)) (ix : List (Nat × Nat)) (ip : Bool) (er : String) :
    Transform.rename (.df d) ax cm ix ip er
      = (.returned none [Transform.tErrPrint (.typeError Transform.renameAxisConflictMsg)],
        .df d) := rfl

/-! ## C9 -/

/-- C10 (counterexample): the initial validation of rename accepts only a
DataFrame - a single-column Series input raises TypeError. -/
theorem rename_rejects_series_cex :
    Transform.rename (.series sA) "columns" [] [] false "ignore"
      = (.raised (.typeError Transform.renameTypeMsg), .series sA) := rfl

/-- C10 (amended): five of the six Transformer operations (drop missing,
replace, explode, change type, parse datetime) pass their initial type
validation on a single-column Series - no TypeError is raised - while
rename validates against DataFrame only and raises TypeError on a Series. -/
theorem transformer_series_acceptance (s : Series) (cols : Option (List String))
    (dr how : String) (ip : Bool) (a b : Cell) (ec : List String)
    (ty : Transform.Dtype) (c ax er : String) (cm : List (String × String))
    (ix : List (Nat × Nat)) :
    (Transform.drop_na (.series s) cols dr ip how).1.isTypeErrorRaised = false ∧
    (Transform.replace (.series s) a b ip).1.isTypeErrorRaised = false ∧
    (Transform.explode (.series s) ec).1.isTypeErrorRaised = false ∧
    (Transform.changetype (.series s) ty).1.isTypeErrorRaised = false ∧
    (Transform.to_datetime (.series s) c).1.isTypeErrorRaised = false ∧
    Transform.rename (.series s) ax cm ix ip er
      = (.raised (.typeError Transform.renameTypeMsg), .series s) := by
  refine ⟨?_, ?_, rfl, ?_, ?_, rfl⟩
  · simp only [Transform.drop_na]
    (repeat' split) <;> rfl
  · cases ip <;> rfl
  · simp only [Transform.changetype]
    (repeat' split) <;> rfl
  · simp only [Transform.to_datetime]
    (repeat' split) <;> rfl

/-! ## C5 -/

end EasyEtl
